import Mathlib

/-!
Verification of the orchestration logic of the `imitation` training scripts
(`src/imitation/scripts/train_adversarial.py` and
`src/imitation/scripts/expert_demos.py`).

The script bodies are embedded shallowly: machine integers become `Nat`/`Int`,
Python `%` is modelled including its `ZeroDivisionError`, `str.lower` is
modelled on ASCII, Python keyword-argument merging `dict(**a, **b)` is
modelled including the `TypeError` it raises on the first duplicate key,
`f"{r:05d}"` is modelled as left zero-padding of `str(r)` to width 5, and the
script's observable side effects (directory creation, environment creation,
training start, checkpoint saves) are recorded as an explicit event trace.

External collaborators (the RL algorithm, gym environments, tensorboard,
wandb, sacred) are opaque: the model records only the events at their call
sites.  The model fixes `wandb_integration = video_tracking = False` and
`reward_net_cls = None`, which the claims do not touch; those branches only
add calls into external collaborators and change no control flow relevant to
the claims.
-/

deriving instance DecidableEq for Except

namespace Imitation

/-- The observable effects of one `train_adversarial` run, in program order. -/
inductive Event where
  /-- `logger.configure(folder=osp.join(log_dir, "rl"), ...)` (line 190). -/
  | loggerConfigured (folder : String)
  /-- `os.makedirs(log_dir, exist_ok=True)` (line 196). -/
  | dirCreated (path : String)
  /-- `sacred_util.build_sacred_symlink(log_dir, _run)` (line 197). -/
  | sacredSymlinkCreated (path : String)
  /-- `util.make_vec_env(env_name, num_vec, ...)` (line 199). -/
  | envCreated (envName : String) (numVec : Nat)
  /-- `util.init_rl(venv, **init_rl_kwargs)` (line 217). -/
  | rlAlgoInitialized
  /-- `trainer.train(total_timesteps, callback)` begins (line 266). -/
  | trainingStarted
  /-- One `save(trainer, dir)` call (lines 46-59, via lines 264 and 270). -/
  | checkpointSaved (dir : String)
deriving DecidableEq

/-- The exceptions `train_adversarial` can raise, in the order the raising
statements appear in the source. -/
inductive Err where
  /-- Python `ZeroDivisionError` from `gen_batch_size % num_vec` when
  `num_vec == 0` (line 158). -/
  | zeroDivision
  /-- `ValueError`: `num_vec` must evenly divide `gen_batch_size`
  (lines 158-161). -/
  | batchSizeError
  /-- `ValueError`: invalid `algorithm_kwargs` key (lines 163-168). -/
  | kwargsKeyError
  /-- `FileNotFoundError`: `rollout_path` does not exist (lines 170-171). -/
  | fileNotFound
  /-- `ValueError`: fewer expert trajectories than `n_expert_demos`
  (lines 174-179). -/
  | insufficientData
  /-- Python `TypeError` from `dict(**shared, **algo)` on a duplicate keyword
  argument; carries the one key CPython names (lines 224-227). -/
  | conflictingKey (k : String)
  /-- `ValueError`: invalid value `algorithm` (lines 242-243). -/
  | unknownAlgorithm
deriving DecidableEq

/-- The closed set of adversarial trainer classes (lines 238-241). -/
inductive AlgoCls where
  | GAIL
  | AIRL
deriving DecidableEq

/-- ASCII lowercasing of one character, as Python `str.lower` acts on the
ASCII range. -/
def pyLowerChar (c : Char) : Char :=
  if 'A' ≤ c ∧ c ≤ 'Z' then Char.ofNat (c.toNat + 32) else c

/-- Model of Python `str.lower()`, restricted to ASCII strings (every string
the claims quantify over is a case variant of an ASCII literal). -/
def pyLower (s : String) : String :=
  String.mk (s.data.map pyLowerChar)

/-- Model of Python `a % b` on integers with a nonnegative dividend and
divisor (`Nat` values): a `ZeroDivisionError` when the divisor is 0,
otherwise the remainder. -/
def pyMod (a b : Nat) : Except Unit Nat :=
  if b = 0 then .error () else .ok (a % b)

/-- The closed key set of `algorithm_kwargs` (line 163). -/
def allowedKeys : List String :=
  ["shared", "gail", "airl"]

/-- Model of `algorithm_kwargs.keys() <= allowed_keys` (line 164). -/
def keysOk (keys : List String) : Bool :=
  keys.all (fun k => allowedKeys.contains k)

/-- Model of Python `mapping.get(key, default)` on an insertion-ordered
mapping represented as an association list with distinct keys. -/
def pyGet {β : Type} (m : List (String × β)) (key : String) (dflt : β) : β :=
  match m.find? (fun kv => kv.1 = key) with
  | some kv => kv.2
  | none => dflt

/-- The keys present in both mappings, in the second mapping's order
(the order in which CPython encounters duplicates in `dict(**sh, **al)`). -/
def commonKeys (sh al : List (String × Nat)) : List String :=
  (al.filter (fun kv => (sh.map Prod.fst).contains kv.1)).map Prod.fst

/-- Model of `dict(**algorithm_kwargs_shared, **algorithm_kwargs_algo)`
(lines 224-227): CPython raises `TypeError` naming the first key of the
second mapping already present in the first; otherwise the result holds all
pairs of both mappings. -/
def pyKwargsMerge (sh al : List (String × Nat)) :
    Except String (List (String × Nat)) :=
  match al.find? (fun kv => (sh.map Prod.fst).contains kv.1) with
  | some kv => .error kv.1
  | none => .ok (sh ++ al)

/-- Lines 222-227: select the shared and per-algorithm kwargs (note: the raw
`algorithm` string indexes `algorithm_kwargs`) and merge them. -/
def resolveAlgoKwargs (algorithm : String)
    (algorithm_kwargs : List (String × List (String × Nat))) :
    Except String (List (String × Nat)) :=
  pyKwargsMerge (pyGet algorithm_kwargs "shared" [])
    (pyGet algorithm_kwargs algorithm [])

/-- Lines 238-243: dispatch on `algorithm.lower()` to a trainer class, or
raise `ValueError`. -/
def selectAlgo (algorithm : String) : Except Unit AlgoCls :=
  if pyLower algorithm = "gail" then .ok .GAIL
  else if pyLower algorithm = "airl" then .ok .AIRL
  else .error ()

/-- Lines 174-180: error if fewer trajectories than `n_expert_demos` are
available, else keep the first `n_expert_demos` (`expert_trajs[:n]`); `none`
keeps everything.  The count is a `Nat`, per the docstring ("use exactly
`n_expert_demos` trajectories"). -/
def limitExpertDemos {α : Type} (trajs : List α) (n : Option Nat) :
    Except Unit (List α) :=
  match n with
  | none => .ok trajs
  | some n => if trajs.length < n then .error () else .ok (trajs.take n)

/-- Line 263: the intermediate-checkpoint condition
`checkpoint_interval > 0 and round_num % checkpoint_interval == 0`.
Like Python's `and`, `&&` short-circuits, so no division by zero can occur;
for a positive divisor `Int.emod` agrees with Python `%`. -/
def callbackSaves (checkpoint_interval : Int) (round_num : Nat) : Bool :=
  decide (0 < checkpoint_interval) &&
    decide ((round_num : Int) % checkpoint_interval = 0)

/-- Line 269: the final-save condition `checkpoint_interval >= 0`. -/
def finalSaves (checkpoint_interval : Int) : Bool :=
  decide (0 ≤ checkpoint_interval)

/-- Model of `os.path.join(a, b)` for relative, non-empty, slash-free
components (the only shapes the script builds). -/
def ospJoin (a b : String) : String :=
  a ++ "/" ++ b

/-- Model of Python `f"{n:05d}"` for a nonnegative `n`: `str(n)` left-padded
with zeros to a minimum width of 5. -/
def pyFormat05 (n : Nat) : String :=
  String.mk (List.replicate (5 - (Nat.repr n).length) '0') ++ Nat.repr n

/-- Line 264: the directory an intermediate checkpoint of a round is saved
under. -/
def checkpointDir (log_dir : String) (round_num : Nat) : String :=
  ospJoin (ospJoin log_dir "checkpoints") (pyFormat05 round_num)

/-- Line 270: the directory the completion checkpoint is saved under. -/
def finalCheckpointDir (log_dir : String) : String :=
  ospJoin (ospJoin log_dir "checkpoints") "final"

/-- Lines 46-59: the paths `save(trainer, save_path)` writes: the reward
networks and the generator-policy subdirectory. -/
def savePaths (save_path : String) : List String :=
  [ospJoin save_path "reward_train.pt",
   ospJoin save_path "reward_test.pt",
   ospJoin save_path "gen_policy"]

/-- The configuration parameters of `train_adversarial` the claims are
about.  Kwargs mappings are association lists with opaque (`Nat`) values. -/
structure Config where
  algorithm : String
  env_name : String
  num_vec : Nat
  gen_batch_size : Nat
  rollout_path : String
  n_expert_demos : Option Nat
  log_dir : String
  checkpoint_interval : Int
  algorithm_kwargs : List (String × List (String × Nat))
deriving DecidableEq

/-- The outcome of one modelled `train_adversarial` run: the event trace up
to the error or the end, the error if one was raised, the expert
demonstrations actually handed to the trainer (line 180-181; `[]` when the
run fails before truncation), the trainer class selected and the merged
kwargs passed to its constructor. -/
structure RunResult (α : Type) where
  events : List Event
  error : Option Err
  usedDemos : List α
  selected : Option AlgoCls
  finalKwargs : List (String × Nat)
deriving DecidableEq

/-- The events lines 185-217 emit, between demonstration loading and the
kwargs merge. -/
def preEvents (cfg : Config) : List Event :=
  [Event.loggerConfigured (ospJoin cfg.log_dir "rl"),
   Event.dirCreated cfg.log_dir,
   Event.sacredSymlinkCreated cfg.log_dir,
   Event.envCreated cfg.env_name cfg.num_vec,
   Event.rlAlgoInitialized]

/-- The checkpoint-save events the `callback` (lines 262-264) emits when the
trainer invokes it at the given round numbers. -/
def roundSaveEvents (cfg : Config) (rounds : List Nat) : List Event :=
  rounds.filterMap (fun r =>
    if callbackSaves cfg.checkpoint_interval r then
      some (Event.checkpointSaved (checkpointDir cfg.log_dir r))
    else none)

/-- The final-save event (lines 269-270). -/
def finalSaveEvents (cfg : Config) : List Event :=
  if finalSaves cfg.checkpoint_interval then
    [Event.checkpointSaved (finalCheckpointDir cfg.log_dir)]
  else []

/-- Shallow embedding of the body of `train_adversarial`
(`train_adversarial.py` lines 158-285), in source order.  `fs` maps a path
to the trajectory list stored there (`none` when the path does not exist;
this combines `os.path.exists` at line 170 with `types.load` at line 173).
`rounds` lists the round numbers at which the external training loop invokes
the registered callback. -/
def train_adversarial {α : Type} (cfg : Config)
    (fs : String → Option (List α)) (rounds : List Nat) : RunResult α :=
  match pyMod cfg.gen_batch_size cfg.num_vec with
  | .error _ => ⟨[], some .zeroDivision, [], none, []⟩
  | .ok m =>
    if m ≠ 0 then ⟨[], some .batchSizeError, [], none, []⟩
    else if ¬ keysOk (cfg.algorithm_kwargs.map Prod.fst) then
      ⟨[], some .kwargsKeyError, [], none, []⟩
    else
      match fs cfg.rollout_path with
      | none => ⟨[], some .fileNotFound, [], none, []⟩
      | some trajs =>
        match limitExpertDemos trajs cfg.n_expert_demos with
        | .error _ => ⟨[], some .insufficientData, [], none, []⟩
        | .ok demos =>
          match resolveAlgoKwargs cfg.algorithm cfg.algorithm_kwargs with
          | .error k => ⟨preEvents cfg, some (.conflictingKey k), demos,
              none, []⟩
          | .ok finalKw =>
            match selectAlgo cfg.algorithm with
            | .error _ => ⟨preEvents cfg, some .unknownAlgorithm, demos,
                none, finalKw⟩
            | .ok cls =>
              ⟨preEvents cfg ++ [Event.trainingStarted]
                 ++ roundSaveEvents cfg rounds ++ finalSaveEvents cfg,
               none, demos, some cls, finalKw⟩

/-- A configuration whose only defect is an unknown discriminant string:
every validation up to the algorithm dispatch passes. -/
def cfgUnknownAlgo : Config :=
  { algorithm := "sail", env_name := "CartPole-v1", num_vec := 4,
    gen_batch_size := 8, rollout_path := "demo.pkl", n_expert_demos := none,
    log_dir := "out", checkpoint_interval := 1, algorithm_kwargs := [] }

/-- A configuration with zero parallel environments and a batch size not
divisible by it. -/
def cfgZeroVec : Config :=
  { algorithm := "gail", env_name := "CartPole-v1", num_vec := 0,
    gen_batch_size := 5, rollout_path := "demo.pkl", n_expert_demos := none,
    log_dir := "out", checkpoint_interval := 1, algorithm_kwargs := [] }

/-- A valid configuration requesting one expert demonstration. -/
def cfgDemoLimit : Config :=
  { algorithm := "gail", env_name := "CartPole-v1", num_vec := 2,
    gen_batch_size := 4, rollout_path := "demo.pkl",
    n_expert_demos := some 1, log_dir := "out", checkpoint_interval := 0,
    algorithm_kwargs := [] }

/-- A configuration whose `algorithm_kwargs` holds a key outside the closed
set. -/
def cfgBadKey : Config :=
  { algorithm := "gail", env_name := "CartPole-v1", num_vec := 2,
    gen_batch_size := 4, rollout_path := "demo.pkl", n_expert_demos := none,
    log_dir := "out", checkpoint_interval := 0,
    algorithm_kwargs := [("bogus", [])] }

/-- The stopping criterion built by `rollout.make_sample_until`:
a minimum-timestep or minimum-episode target. -/
inductive Criterion where
  | timesteps (n : Int)
  | episodes (n : Int)
deriving DecidableEq

/-- Modelled from the spec: the body of `rollout.make_sample_until`
(called at `expert_demos.py` lines 106-109) is not among the repository
sources; per spec section 4.1 the criterion is "constructed from exactly one
of min_timesteps (a positive integer) and min_episodes (a positive
integer)", and construction fails with InvalidConfiguration if zero or both
are supplied, or if the supplied count is not positive. -/
def make_sample_until (min_timesteps min_episodes : Option Int) :
    Except Unit Criterion :=
  match min_timesteps, min_episodes with
  | none, none => .error ()
  | some _, some _ => .error ()
  | some t, none => if 1 ≤ t then .ok (.timesteps t) else .error ()
  | none, some e => if 1 ≤ e then .ok (.episodes e) else .error ()

/-- Helper: searching for the first element satisfying a predicate is taking
the head of the filtered list. -/
theorem find?_eq_head?_filter {α : Type} (p : α → Bool) (l : List α) :
    l.find? p = (l.filter p).head? := by
  induction l with
  | nil => rfl
  | cons x tl ih =>
    by_cases h : p x = true
    · rw [List.find?_cons_of_pos _ h, List.filter_cons_of_pos h, List.head?_cons]
    · rw [List.find?_cons_of_neg _ h, List.filter_cons_of_neg h, ih]

/-- Helper: the key-set check of lines 163-168 fails exactly when some key
lies outside the closed set. -/
theorem keysOk_eq_false_iff (ks : List String) :
    keysOk ks = false ↔ ∃ k ∈ ks, ¬ k ∈ allowedKeys := by
  rw [← Bool.not_eq_true]
  simp [keysOk, List.all_eq_true]

/-- Helper: the run with zero vectorized environments dies immediately in
the modulo of the very first check. -/
theorem run_zeroVec {α : Type} (cfg : Config) (fs : String → Option (List α))
    (rounds : List Nat) (hv : cfg.num_vec = 0) :
    train_adversarial cfg fs rounds = ⟨[], some .zeroDivision, [], none, []⟩ := by
  unfold train_adversarial
  simp [pyMod, hv]

/-- Helper: a batch size not divisible by a nonzero `num_vec` aborts the run
with the batch-size error before anything else happens. -/
theorem run_badBatch {α : Type} (cfg : Config) (fs : String → Option (List α))
    (rounds : List Nat) (hv : cfg.num_vec ≠ 0)
    (hm : cfg.gen_batch_size % cfg.num_vec ≠ 0) :
    train_adversarial cfg fs rounds = ⟨[], some .batchSizeError, [], none, []⟩ := by
  unfold train_adversarial
  simp [pyMod, hv, hm]

/-- Helper: an `algorithm_kwargs` key outside the closed set aborts the run
with the kwargs-key error before anything else happens. -/
theorem run_badKeys {α : Type} (cfg : Config) (fs : String → Option (List α))
    (rounds : List Nat) (hv : cfg.num_vec ≠ 0)
    (hm : cfg.gen_batch_size % cfg.num_vec = 0)
    (hk : keysOk (cfg.algorithm_kwargs.map Prod.fst) = false) :
    train_adversarial cfg fs rounds = ⟨[], some .kwargsKeyError, [], none, []⟩ := by
  unfold train_adversarial
  simp [pyMod, hv, hm, hk]

/-- Helper: once the two configuration checks pass, the run is the sequence
of demonstration loading, side effects, kwargs merge, dispatch and
training. -/
theorem run_afterChecks {α : Type} (cfg : Config)
    (fs : String → Option (List α)) (rounds : List Nat)
    (hv : cfg.num_vec ≠ 0) (hm : cfg.gen_batch_size % cfg.num_vec = 0)
    (hk : keysOk (cfg.algorithm_kwargs.map Prod.fst) = true) :
    train_adversarial cfg fs rounds =
      match fs cfg.rollout_path with
      | none => ⟨[], some .fileNotFound, [], none, []⟩
      | some trajs =>
        match limitExpertDemos trajs cfg.n_expert_demos with
        | .error _ => ⟨[], some .insufficientData, [], none, []⟩
        | .ok demos =>
          match resolveAlgoKwargs cfg.algorithm cfg.algorithm_kwargs with
          | .error k => ⟨preEvents cfg, some (.conflictingKey k), demos,
              none, []⟩
          | .ok finalKw =>
            match selectAlgo cfg.algorithm with
            | .error _ => ⟨preEvents cfg, some .unknownAlgorithm, demos,
                none, finalKw⟩
            | .ok cls =>
              ⟨preEvents cfg ++ [Event.trainingStarted]
                 ++ roundSaveEvents cfg rounds ++ finalSaveEvents cfg,
               none, demos, some cls, finalKw⟩ := by
  unfold train_adversarial
  simp [pyMod, hv, hm, hk]

/-- C1: the intermediate checkpoint save fires if and only if the interval
is positive and the round counter is a multiple of it (with interval 5 this
means exactly the rounds divisible by 5, and with interval 0 it never
fires), and the final save at completion occurs if and only if the interval
is nonnegative, i.e. a strictly negative interval suppresses all saving
including at completion. -/
theorem checkpoint_schedule_iff (k : Int) (t : Nat) :
    (callbackSaves k t = true ↔ 0 < k ∧ (t : Int) % k = 0)
    ∧ (callbackSaves 5 t = true ↔ t % 5 = 0)
    ∧ callbackSaves 0 t = false
    ∧ (finalSaves k = true ↔ 0 ≤ k) := by
  refine ⟨?_, ?_, ?_, ?_⟩
  · simp [callbackSaves]
  · simp only [callbackSaves, Bool.and_eq_true, decide_eq_true_eq]
    omega
  · simp [callbackSaves]
  · simp [finalSaves]

/-- C5: the trainer class is selected from the discriminant string
case-insensitively: every string lowercasing to "gail" selects GAIL, every
string lowercasing to "airl" selects AIRL, and every other string raises the
unknown-algorithm error. -/
theorem algorithm_dispatch_case_insensitive (s : String) :
    (selectAlgo s = .ok .GAIL ↔ pyLower s = "gail")
    ∧ (selectAlgo s = .ok .AIRL ↔ pyLower s = "airl")
    ∧ (selectAlgo s = .error () ↔ pyLower s ≠ "gail" ∧ pyLower s ≠ "airl") := by
  unfold selectAlgo
  split_ifs with h1 h2 <;> simp_all

/-- C8: a rollout-saving stopping criterion is successfully constructed if
and only if exactly one of the two counts is supplied and that count is
positive; with zero or both counts supplied, or a nonpositive count,
construction fails.  (The body of make_sample_until is modelled from the
spec, since only its call sites are among the sources.) -/
theorem sample_until_exactly_one (mt me : Option Int) :
    (∃ c, make_sample_until mt me = .ok c) ↔
      (∃ t, mt = some t ∧ 1 ≤ t ∧ me = none) ∨
      (∃ e, me = some e ∧ 1 ≤ e ∧ mt = none) := by
  cases mt with
  | none =>
    cases me with
    | none => simp [make_sample_until]
    | some e =>
      by_cases h : 1 ≤ e <;> simp [make_sample_until, h]
  | some t =>
    cases me with
    | none =>
      by_cases h : 1 ≤ t <;> simp [make_sample_until, h]
    | some e => simp [make_sample_until]

/-- C9 (amended): an intermediate checkpoint of round r goes under
log_dir/checkpoints/S where S is str(r) left zero-padded to a minimum width
of 5 (so S has length max(5, len(str(r))): exactly 5 digits for rounds below
100000, more for larger rounds), a save writes the two reward networks and
a gen_policy subdirectory there, and the completion checkpoint goes under
log_dir/checkpoints/final. -/
theorem checkpoint_path_layout_amended (log_dir : String) (r : Nat) :
    checkpointDir log_dir r = log_dir ++ "/" ++ "checkpoints" ++ "/" ++ pyFormat05 r
    ∧ (pyFormat05 r).length = max 5 (Nat.repr r).length
    ∧ finalCheckpointDir log_dir = log_dir ++ "/" ++ "checkpoints" ++ "/" ++ "final"
    ∧ savePaths (checkpointDir log_dir r) =
        [checkpointDir log_dir r ++ "/" ++ "reward_train.pt",
         checkpointDir log_dir r ++ "/" ++ "reward_test.pt",
         checkpointDir log_dir r ++ "/" ++ "gen_policy"] := by
  refine ⟨rfl, ?_, rfl, rfl⟩
  simp only [pyFormat05, String.length_append]
  show (List.replicate (5 - (Nat.repr r).length) '0').length + (Nat.repr r).length = _
  simp only [List.length_replicate]
  omega

/-- C9 counterexample: the claim says the round number is zero-padded to
exactly 5 digits, but at round 100000 the checkpoint directory component is
"100000", which has 6 digits. -/
theorem checkpoint_padding_six_digits :
    checkpointDir "out" 100000 = "out/checkpoints/100000"
    ∧ (pyFormat05 100000).length = 6 := by
  decide

/-- C3 (amended): merging the shared kwargs with the selected variant kwargs
fails exactly when the two share a key, and the raised error names the first
key (in the variant mapping's order) present in both — not every such key;
when the key sets are disjoint the merge succeeds and the result holds all
pairs of both mappings (so its key set is the union of both key sets). -/
theorem kwargs_merge_first_conflict (sh al : List (String × Nat)) :
    pyKwargsMerge sh al =
      (match commonKeys sh al with
       | [] => .ok (sh ++ al)
       | k :: _ => .error k)
    ∧ (commonKeys sh al = [] ↔
        ∀ k ∈ al.map Prod.fst, ¬ k ∈ sh.map Prod.fst) := by
  constructor
  · unfold pyKwargsMerge
    rw [find?_eq_head?_filter]
    unfold commonKeys
    cases hf : al.filter (fun kv => (sh.map Prod.fst).contains kv.1) with
    | nil => rfl
    | cons kv tl => rfl
  · simp [commonKeys, List.filter_eq_nil_iff]

/-- C3 counterexample: with shared = {a: 1, b: 2} and variant
{a: 3, b: 4}, both "a" and "b" are present in both mappings, yet the raised
error names only "a" — it does not list every key present in both. -/
theorem kwargs_merge_reports_single_key :
    pyKwargsMerge [("a", 1), ("b", 2)] [("a", 3), ("b", 4)] = .error "a"
    ∧ "b" ∈ commonKeys [("a", 1), ("b", 2)] [("a", 3), ("b", 4)]
    ∧ "b" ≠ "a" := by
  decide

/-- Helper: the run once the checks pass and the demonstration file is
present. -/
theorem run_withDemos {α : Type} (cfg : Config)
    (fs : String → Option (List α)) (rounds : List Nat) (trajs : List α)
    (hv : cfg.num_vec ≠ 0) (hm : cfg.gen_batch_size % cfg.num_vec = 0)
    (hk : keysOk (cfg.algorithm_kwargs.map Prod.fst) = true)
    (hfs : fs cfg.rollout_path = some trajs) :
    train_adversarial cfg fs rounds =
      match limitExpertDemos trajs cfg.n_expert_demos with
      | .error _ => ⟨[], some .insufficientData, [], none, []⟩
      | .ok demos =>
        match resolveAlgoKwargs cfg.algorithm cfg.algorithm_kwargs with
        | .error k => ⟨preEvents cfg, some (.conflictingKey k), demos,
            none, []⟩
        | .ok finalKw =>
          match selectAlgo cfg.algorithm with
          | .error _ => ⟨preEvents cfg, some .unknownAlgorithm, demos,
              none, finalKw⟩
          | .ok cls =>
            ⟨preEvents cfg ++ [Event.trainingStarted]
               ++ roundSaveEvents cfg rounds ++ finalSaveEvents cfg,
             none, demos, some cls, finalKw⟩ := by
  rw [run_afterChecks cfg fs rounds hv hm hk, hfs]

/-- Helper: the run once the checks pass and the demonstrations have been
loaded and truncated successfully. -/
theorem run_withDemosOk {α : Type} (cfg : Config)
    (fs : String → Option (List α)) (rounds : List Nat)
    (trajs demos : List α)
    (hv : cfg.num_vec ≠ 0) (hm : cfg.gen_batch_size % cfg.num_vec = 0)
    (hk : keysOk (cfg.algorithm_kwargs.map Prod.fst) = true)
    (hfs : fs cfg.rollout_path = some trajs)
    (hlim : limitExpertDemos trajs cfg.n_expert_demos = .ok demos) :
    train_adversarial cfg fs rounds =
      match resolveAlgoKwargs cfg.algorithm cfg.algorithm_kwargs with
      | .error k => ⟨preEvents cfg, some (.conflictingKey k), demos,
          none, []⟩
      | .ok finalKw =>
        match selectAlgo cfg.algorithm with
        | .error _ => ⟨preEvents cfg, some .unknownAlgorithm, demos,
            none, finalKw⟩
        | .ok cls =>
          ⟨preEvents cfg ++ [Event.trainingStarted]
             ++ roundSaveEvents cfg rounds ++ finalSaveEvents cfg,
           none, demos, some cls, finalKw⟩ := by
  rw [run_withDemos cfg fs rounds trajs hv hm hk hfs, hlim]

/-- Helper: when both configuration checks pass, the run can no longer
raise the batch-size or the kwargs-key error. -/
theorem run_error_of_checks_passed {α : Type} (cfg : Config)
    (fs : String → Option (List α)) (rounds : List Nat)
    (hv : cfg.num_vec ≠ 0) (hm : cfg.gen_batch_size % cfg.num_vec = 0)
    (hk : keysOk (cfg.algorithm_kwargs.map Prod.fst) = true) :
    (train_adversarial cfg fs rounds).error ≠ some Err.batchSizeError
    ∧ (train_adversarial cfg fs rounds).error ≠ some Err.kwargsKeyError := by
  rw [run_afterChecks cfg fs rounds hv hm hk]
  refine ⟨?_, ?_⟩ <;> (repeat' split) <;> simp

/-- C2 (amended): the invalid batch size, unknown kwargs-key and data errors
(missing demonstration file, too few demonstrations) are all raised before
any environment is created and before any file or directory is written (the
event trace is empty); but the unknown-discriminant and conflicting-keys
errors are raised only after the logger is configured, the log directory is
created and the environment is built — though still before training
begins. -/
theorem config_error_ordering_amended {α : Type} (cfg : Config)
    (fs : String → Option (List α)) (rounds : List Nat) :
    match (train_adversarial cfg fs rounds).error with
    | none => Event.trainingStarted ∈ (train_adversarial cfg fs rounds).events
    | some (.conflictingKey _) | some .unknownAlgorithm =>
        (train_adversarial cfg fs rounds).events = preEvents cfg
        ∧ ¬ Event.trainingStarted ∈ (train_adversarial cfg fs rounds).events
    | some _ => (train_adversarial cfg fs rounds).events = [] := by
  by_cases hv : cfg.num_vec = 0
  · rw [run_zeroVec cfg fs rounds hv]
  · by_cases hm : cfg.gen_batch_size % cfg.num_vec = 0
    · by_cases hk : keysOk (cfg.algorithm_kwargs.map Prod.fst) = true
      · rcases hfs : fs cfg.rollout_path with _ | trajs
        · have hrun := run_afterChecks cfg fs rounds hv hm hk
          rw [hfs] at hrun
          rw [hrun]
        · rcases hlim : limitExpertDemos trajs cfg.n_expert_demos with e | demos
          · have hrun := run_withDemos cfg fs rounds trajs hv hm hk hfs
            rw [hlim] at hrun
            rw [hrun]
          · rcases hres : resolveAlgoKwargs cfg.algorithm cfg.algorithm_kwargs with k | kw
            · have hrun := run_withDemosOk cfg fs rounds trajs demos hv hm hk hfs hlim
              rw [hres] at hrun
              rw [hrun]
              exact ⟨rfl, by simp [preEvents]⟩
            · rcases hsel : selectAlgo cfg.algorithm with e | cls
              · have hrun := run_withDemosOk cfg fs rounds trajs demos hv hm hk hfs hlim
                rw [hres, hsel] at hrun
                rw [hrun]
                exact ⟨rfl, by simp [preEvents]⟩
              · have hrun := run_withDemosOk cfg fs rounds trajs demos hv hm hk hfs hlim
                rw [hres, hsel] at hrun
                rw [hrun]
                simp [preEvents]
      · rw [run_badKeys cfg fs rounds hv hm (by simpa using hk)]
    · rw [run_badBatch cfg fs rounds hv hm]

/-- C2 counterexample: with a configuration whose only defect is the unknown
discriminant "sail", the run fails with the unknown-algorithm configuration
error, yet the environment has been created and the log directory written
before the error is raised — refuting the claim that every configuration
error precedes those effects. -/
theorem unknown_algorithm_after_env_creation :
    (train_adversarial cfgUnknownAlgo (fun _ => some [(0 : Nat)]) []).error
        = some Err.unknownAlgorithm
    ∧ Event.envCreated "CartPole-v1" 4
        ∈ (train_adversarial cfgUnknownAlgo (fun _ => some [(0 : Nat)]) []).events
    ∧ Event.dirCreated "out"
        ∈ (train_adversarial cfgUnknownAlgo (fun _ => some [(0 : Nat)]) []).events := by
  decide

/-- C6 (amended): for a nonzero number of environments, the run aborts with
the batch-size configuration error, before any other work, exactly when the
generator batch size is not divisible by the number of environments; with
zero environments the check itself raises a ZeroDivisionError (also before
any other work), not the batch-size error. -/
theorem batch_divisibility_check_amended {α : Type} (cfg : Config)
    (fs : String → Option (List α)) (rounds : List Nat) :
    if cfg.num_vec = 0 then
      train_adversarial cfg fs rounds = ⟨[], some .zeroDivision, [], none, []⟩
    else
      (train_adversarial cfg fs rounds = ⟨[], some .batchSizeError, [], none, []⟩
        ↔ ¬ cfg.num_vec ∣ cfg.gen_batch_size) := by
  by_cases hv : cfg.num_vec = 0
  · rw [if_pos hv]
    exact run_zeroVec cfg fs rounds hv
  · rw [if_neg hv]
    constructor
    · intro h hdvd
      have hm : cfg.gen_batch_size % cfg.num_vec = 0 :=
        Nat.dvd_iff_mod_eq_zero.mp hdvd
      by_cases hk : keysOk (cfg.algorithm_kwargs.map Prod.fst) = true
      · exact (run_error_of_checks_passed cfg fs rounds hv hm hk).1 (by rw [h])
      · have hbad := run_badKeys cfg fs rounds hv hm (by simpa using hk)
        rw [hbad] at h
        simp at h
    · intro hnd
      have hm : cfg.gen_batch_size % cfg.num_vec ≠ 0 := fun hm =>
        hnd (Nat.dvd_iff_mod_eq_zero.mpr hm)
      exact run_badBatch cfg fs rounds hv hm

/-- C6 counterexample: with zero vectorized environments and batch size 5,
the batch size is not divisible by the environment count, yet the run fails
with a ZeroDivisionError rather than the invalid-configuration error the
claim requires for every such pair. -/
theorem batch_check_zero_num_vec :
    cfgZeroVec.num_vec = 0 ∧ cfgZeroVec.gen_batch_size = 5
    ∧ ¬ (cfgZeroVec.num_vec ∣ cfgZeroVec.gen_batch_size)
    ∧ (train_adversarial cfgZeroVec (fun _ => some [(0 : Nat)]) []).error
        = some Err.zeroDivision
    ∧ (train_adversarial cfgZeroVec (fun _ => some [(0 : Nat)]) []).error
        ≠ some Err.batchSizeError := by
  decide

/-- C4: with a valid configuration, a demonstration file holding fewer than
the requested number of trajectories makes the run fail with the
insufficient-data error before any side effect (training never begins);
with enough trajectories, exactly the first n trajectories are used,
unchanged and in their original order — never padded or repeated. -/
theorem expert_demo_truncation {α : Type} (cfg : Config)
    (fs : String → Option (List α)) (rounds : List Nat)
    (trajs : List α) (n : Nat)
    (hfs : fs cfg.rollout_path = some trajs)
    (hn : cfg.n_expert_demos = some n)
    (hv : cfg.num_vec ≠ 0)
    (hdvd : cfg.num_vec ∣ cfg.gen_batch_size)
    (hk : keysOk (cfg.algorithm_kwargs.map Prod.fst) = true) :
    if trajs.length < n then
      train_adversarial cfg fs rounds = ⟨[], some .insufficientData, [], none, []⟩
    else
      (train_adversarial cfg fs rounds).usedDemos = trajs.take n
      ∧ (train_adversarial cfg fs rounds).usedDemos.length = n := by
  have hm := Nat.dvd_iff_mod_eq_zero.mp hdvd
  by_cases hlt : trajs.length < n
  · rw [if_pos hlt]
    have hlim : limitExpertDemos trajs cfg.n_expert_demos = .error () := by
      rw [hn]
      simp [limitExpertDemos, hlt]
    have hrun := run_withDemos cfg fs rounds trajs hv hm hk hfs
    rw [hlim] at hrun
    exact hrun
  · rw [if_neg hlt]
    have hlim : limitExpertDemos trajs cfg.n_expert_demos = .ok (trajs.take n) := by
      rw [hn]
      simp [limitExpertDemos, hlt]
    have hlen : (trajs.take n).length = n := by
      rw [List.length_take]
      omega
    have hrun := run_withDemosOk cfg fs rounds trajs (trajs.take n) hv hm hk hfs hlim
    rw [hrun]
    refine ⟨?_, ?_⟩ <;> (repeat' split) <;> simp [hlen]

/-- C4 witness: a file with two trajectories and a request for one. -/
theorem expert_demo_truncation_witness :
    if ([7, 8] : List Nat).length < 1 then
      train_adversarial cfgDemoLimit (fun _ => some [7, 8]) []
        = ⟨[], some .insufficientData, [], none, []⟩
    else
      (train_adversarial cfgDemoLimit (fun _ => some [7, 8]) []).usedDemos
          = ([7, 8] : List Nat).take 1
      ∧ (train_adversarial cfgDemoLimit (fun _ => some [7, 8]) []).usedDemos.length = 1 :=
  expert_demo_truncation cfgDemoLimit (fun _ => some [7, 8]) [] [7, 8] 1 rfl rfl
    (by decide) (by decide) (by decide)

/-- C7: with the batch-size check passing, the run fails with the
kwargs-key error exactly when some key of algorithm_kwargs lies outside the
closed set shared/gail/airl; and a variant key absent from the mapping
defaults to the empty kwargs mapping. -/
theorem kwargs_key_validation {α : Type} (cfg : Config)
    (fs : String → Option (List α)) (rounds : List Nat)
    (m : List (String × List (String × Nat))) (s : String)
    (hv : cfg.num_vec ≠ 0)
    (hdvd : cfg.num_vec ∣ cfg.gen_batch_size)
    (hs : ¬ s ∈ m.map Prod.fst) :
    ((train_adversarial cfg fs rounds).error = some Err.kwargsKeyError
      ↔ ∃ k ∈ cfg.algorithm_kwargs.map Prod.fst, ¬ k ∈ allowedKeys)
    ∧ pyGet m s [] = ([] : List (String × Nat)) := by
  have hm := Nat.dvd_iff_mod_eq_zero.mp hdvd
  constructor
  · constructor
    · intro herr
      by_cases hk : keysOk (cfg.algorithm_kwargs.map Prod.fst) = true
      · exact absurd herr (run_error_of_checks_passed cfg fs rounds hv hm hk).2
      · exact (keysOk_eq_false_iff _).mp (by simpa using hk)
    · intro hex
      have hk : keysOk (cfg.algorithm_kwargs.map Prod.fst) = false :=
        (keysOk_eq_false_iff _).mpr hex
      rw [run_badKeys cfg fs rounds hv hm hk]
  · unfold pyGet
    have hnone : m.find? (fun kv => kv.1 = s) = none := by
      rw [List.find?_eq_none]
      intro kv hkv hdec
      exact hs ((of_decide_eq_true hdec) ▸ List.mem_map_of_mem Prod.fst hkv)
    rw [hnone]

/-- C7 witness: a kwargs mapping with the unknown key "bogus", and the
variant key "gail" absent from a mapping holding only "shared". -/
theorem kwargs_key_validation_witness :
    ((train_adversarial cfgBadKey (fun _ => some [(0 : Nat)]) []).error
        = some Err.kwargsKeyError
      ↔ ∃ k ∈ cfgBadKey.algorithm_kwargs.map Prod.fst, ¬ k ∈ allowedKeys)
    ∧ pyGet [("shared", [("x", 1)])] "gail" [] = ([] : List (String × Nat)) :=
  kwargs_key_validation cfgBadKey (fun _ => some [(0 : Nat)]) []
    [("shared", [("x", 1)])] "gail" (by decide) (by decide) (by decide)

/-- C10: for a string that equals "gail" or "airl" only after lowercasing,
the matching trainer class is still selected (dispatch lowercases), but the
variant kwargs stored under the lowercase key are silently ignored (the
lookup uses the raw string, which is not a key of the mapping), so only the
shared kwargs reach the constructor. -/
theorem case_variant_kwargs_ignored (s : String) (sh g a : List (String × Nat))
    (hcase : pyLower s = "gail" ∨ pyLower s = "airl")
    (hraw : s ≠ pyLower s) :
    selectAlgo s = .ok (if pyLower s = "gail" then AlgoCls.GAIL else AlgoCls.AIRL)
    ∧ resolveAlgoKwargs s [("shared", sh), ("gail", g), ("airl", a)] = .ok sh := by
  have hshared : s ≠ "shared" := by
    intro h
    rw [h] at hcase
    revert hcase
    decide
  have hgail : s ≠ "gail" := by
    intro h
    rw [h] at hraw
    exact hraw (by decide)
  have hairl : s ≠ "airl" := by
    intro h
    rw [h] at hraw
    exact hraw (by decide)
  constructor
  · unfold selectAlgo
    rcases hcase with h | h
    · rw [if_pos h, if_pos h]
    · have hne : pyLower s ≠ "gail" := by
        rw [h]
        decide
      rw [if_neg hne, if_neg hne, if_pos h]
  · unfold resolveAlgoKwargs
    have h1 : pyGet [("shared", sh), ("gail", g), ("airl", a)] "shared" [] = sh := rfl
    have h2 : pyGet [("shared", sh), ("gail", g), ("airl", a)] s []
        = ([] : List (String × Nat)) := by
      unfold pyGet
      have hnone : List.find? (fun kv => kv.1 = s)
          [("shared", sh), ("gail", g), ("airl", a)] = none := by
        rw [List.find?_eq_none]
        intro kv hkv
        simp only [List.mem_cons, List.not_mem_nil, or_false] at hkv
        rcases hkv with rfl | rfl | rfl
        · intro hdec
          exact hshared (of_decide_eq_true hdec).symm
        · intro hdec
          exact hgail (of_decide_eq_true hdec).symm
        · intro hdec
          exact hairl (of_decide_eq_true hdec).symm
      rw [hnone]
    rw [h1, h2]
    unfold pyKwargsMerge
    show Except.ok (sh ++ []) = Except.ok sh
    rw [List.append_nil]

/-- C10 witness: the case variant "GAIL" selects the GAIL trainer while the
kwargs stored under "gail" are dropped and only the shared ones remain. -/
theorem case_variant_kwargs_ignored_witness :
    selectAlgo "GAIL" = .ok (if pyLower "GAIL" = "gail" then AlgoCls.GAIL else AlgoCls.AIRL)
    ∧ resolveAlgoKwargs "GAIL" [("shared", [("x", 1)]), ("gail", [("y", 2)]), ("airl", [])]
        = .ok [("x", 1)] :=
  case_variant_kwargs_ignored "GAIL" [("x", 1)] [("y", 2)] []
    (Or.inl (by decide)) (by decide)

end Imitation
